import Mathlib

/-!
Shallow embedding of `include/etl/function_wrapper.h` (Embedded Template
Library): three specializations of `etl::function_wrapper` that wrap

* free functions, lambdas and functors    (`function_wrapper<TReturn(TParameters...)>`),
* mutable member functions                (`function_wrapper<TReturn(TObject&, TParameters...)>`),
* const member functions                  (`function_wrapper<TReturn(const TObject&, TParameters...)>`).

Modelling conventions:

* Pointers (function pointers, object addresses, member-function pointers)
  are modelled as `Nat` values; `0` stands for `ETL_NULLPTR` where a null
  pointer is a default value.  Pointer equality is `Nat` equality.
* Each stub function (`function_stub`, `lambda_stub<TLambda>`,
  `const_lambda_stub<TLambda>`, `method_stub`, `const_method_stub`) is a
  distinct compile-time-generated function, so a *stub pointer* is modelled
  as an `Option` of a tag type; `none` is the null stub pointer, and the
  lambda tags carry a `Nat` identifying the template argument `TLambda`
  (distinct instantiations yield distinct function pointers).
* The union `alternate_method_t` overlays a `void*` and a function pointer
  on the same storage; on the target platforms both members are
  pointer-sized views of the same bits, so the union is modelled as a single
  `Nat` field read by both the `object` and the `func` accessor.
* The behaviour of the external world is supplied by semantic environments:
  `funSem p` is the function at pointer value `p`, `lamSem ty` is
  `TLambda::operator()` of the lambda type tagged `ty` (it may mutate the
  functor's own state), `constLamSem ty` is the const counterpart, and the
  member-function environments map member-pointer values to the member's
  behaviour on a receiver.  Functor state lives in a heap `Nat → σ` indexed
  by object address; receivers are passed and returned explicitly.
* `ETL_ASSERT(is_valid(), ETL_ERROR(etl::member_function_uninitialised))`
  is modelled by the result type `etl_call_result`, whose
  `raised_uninitialised` constructor records that the error facility was
  invoked with the uninitialised condition.  Dispatch through a null stub
  in the free wrapper (which performs no such check) is instead modelled by
  `Option`, `none` being the out-of-contract null dereference.
-/

namespace Etl

/-- Tags identifying the stub functions of the free-callable wrapper; a stub
pointer is `Option stub_id`, `none` being `ETL_NULLPTR`.  The `Nat` carried by
the lambda tags identifies the template argument `TLambda` of the stub
instantiation. -/
inductive stub_id where
  | function_stub : stub_id
  | lambda_stub : Nat → stub_id
  | const_lambda_stub : Nat → stub_id
deriving DecidableEq

/-- Union member of `invocation_element`: holds either a `void*` object
address or a free-function pointer in the same pointer-sized storage, so both
accessors read the same bits. -/
structure alternate_method_t where
  bits : Nat
deriving DecidableEq

/-- Reading the `object` member of the union. -/
def alternate_method_t.object (u : alternate_method_t) : Nat := u.bits

/-- Reading the `func` member of the union. -/
def alternate_method_t.func (u : alternate_method_t) : Nat := u.bits

/-- Union constructor `alternate_method_t(void* object_)`. -/
def alternate_method_t.ofObject (object : Nat) : alternate_method_t := ⟨object⟩

/-- Union constructor `alternate_method_t(function_type func_)`. -/
def alternate_method_t.ofFunc (func : Nat) : alternate_method_t := ⟨func⟩

/-- Default union constructor: `object(ETL_NULLPTR)`. -/
def alternate_method_t.init : alternate_method_t := ⟨0⟩

/-- The invocation record of the free-callable wrapper: the payload union
plus the stub pointer (default `ETL_NULLPTR`). -/
structure invocation_element where
  alternate : alternate_method_t
  stub : Option stub_id
deriving DecidableEq

/-- Source `invocation_element::operator==`:
`(stub == rhs.stub) && ((stub == ETL_NULLPTR) ||
 ((stub == function_stub) && (rhs.alternate.func == alternate.func)) ||
 (rhs.alternate.object == alternate.object))`. -/
def invocation_element.eq (lhs rhs : invocation_element) : Bool :=
  decide (lhs.stub = rhs.stub) &&
    (decide (lhs.stub = none) ||
      (decide (lhs.stub = some stub_id.function_stub) &&
        decide (rhs.alternate.func = lhs.alternate.func)) ||
      decide (rhs.alternate.object = lhs.alternate.object))

/-- Source `invocation_element::operator!=`. -/
def invocation_element.ne (lhs rhs : invocation_element) : Bool :=
  !(invocation_element.eq lhs rhs)

/-- The free-callable wrapper `function_wrapper<TReturn(TParameters...)>`:
it owns its invocation record by value.  The record's content does not
depend on the signature, so the structure itself is signature-free; the
signature types enter through the semantic environment of the call
operations. -/
structure function_wrapper where
  invocation : invocation_element
deriving DecidableEq

/-- Default constructor: default record (null object, null stub). -/
def function_wrapper.init : function_wrapper :=
  ⟨⟨alternate_method_t.init, none⟩⟩

/-- Constructor `function_wrapper(function_type function_)`: stores the
function pointer and binds `function_stub`. -/
def function_wrapper.ofFunction (func : Nat) : function_wrapper :=
  ⟨⟨alternate_method_t.ofFunc func, some stub_id.function_stub⟩⟩

/-- Constructor `function_wrapper(TLambda& instance_)`: stores the object's
address and binds `lambda_stub<TLambda>`. -/
def function_wrapper.ofLambda (lambdaTy addr : Nat) : function_wrapper :=
  ⟨⟨alternate_method_t.ofObject addr, some (stub_id.lambda_stub lambdaTy)⟩⟩

/-- Constructor `function_wrapper(const TLambda& instance_)`: stores the
object's address and binds `const_lambda_stub<TLambda>`. -/
def function_wrapper.ofConstLambda (lambdaTy addr : Nat) : function_wrapper :=
  ⟨⟨alternate_method_t.ofObject addr, some (stub_id.const_lambda_stub lambdaTy)⟩⟩

/-- Source `is_valid()`: `invocation.stub != ETL_NULLPTR`. -/
def function_wrapper.is_valid (self : function_wrapper) : Bool :=
  decide (self.invocation.stub ≠ none)

/-- Source `operator bool()`: returns `is_valid()`. -/
def function_wrapper.to_bool (self : function_wrapper) : Bool :=
  self.is_valid

/-- Source `operator==`: compares the invocation records. -/
def function_wrapper.eq (self rhs : function_wrapper) : Bool :=
  invocation_element.eq self.invocation rhs.invocation

/-- Source `operator!=`: negation of record equality. -/
def function_wrapper.ne (self rhs : function_wrapper) : Bool :=
  invocation_element.ne self.invocation rhs.invocation

/-- Defaulted copy assignment `operator=`: memberwise copy of the record. -/
def function_wrapper.assign (_self other : function_wrapper) : function_wrapper :=
  ⟨other.invocation⟩

/-- Semantic environment of one free-callable signature
`TReturn(TParameters...)`: the behaviour of every free function pointer,
of `TLambda::operator()` for every lambda type tag (which receives and
returns the functor's own state), and of the const counterpart. -/
structure FreeEnv (σ α β : Type) where
  funSem : Nat → α → β
  lamSem : Nat → σ → α → β × σ
  constLamSem : Nat → σ → α → β

/-- Source `function_stub`: `(*invocation.alternate.func)(params...)`.  A
free function neither reads nor writes functor state, so the heap is
unchanged. -/
def function_stub {σ α β : Type} (env : FreeEnv σ α β) (heap : Nat → σ)
    (invocation : invocation_element) (params : α) : β × (Nat → σ) :=
  (env.funSem invocation.alternate.func params, heap)

/-- Source `lambda_stub<TLambda>`: casts `invocation.alternate.object` to
`TLambda*` and calls `operator()` on it, which may mutate the functor's own
state in place. -/
def lambda_stub {σ α β : Type} (env : FreeEnv σ α β) (lambdaTy : Nat)
    (heap : Nat → σ) (invocation : invocation_element) (params : α) :
    β × (Nat → σ) :=
  let addr := invocation.alternate.object
  let call := env.lamSem lambdaTy (heap addr) params
  (call.1, fun a => if a = addr then call.2 else heap a)

/-- Source `const_lambda_stub<TLambda>`: casts
`invocation.alternate.object` to `const TLambda*` and calls the const
`operator()`, leaving all state unchanged. -/
def const_lambda_stub {σ α β : Type} (env : FreeEnv σ α β) (lambdaTy : Nat)
    (heap : Nat → σ) (invocation : invocation_element) (params : α) :
    β × (Nat → σ) :=
  (env.constLamSem lambdaTy (heap invocation.alternate.object) params, heap)

/-- Source `operator()(TParameters... params)` of the free-callable wrapper:
`return (*invocation.stub)(invocation, etl::forward<TParameters>(params)...);`
with no validity check.  Dispatch goes through whichever stub the record
holds; a null stub pointer is dereferenced, which is modelled as `none`. -/
def function_wrapper.call {σ α β : Type} (env : FreeEnv σ α β)
    (heap : Nat → σ) (self : function_wrapper) (params : α) :
    Option (β × (Nat → σ)) :=
  match self.invocation.stub with
  | none => none
  | some stub_id.function_stub =>
      some (function_stub env heap self.invocation params)
  | some (stub_id.lambda_stub lambdaTy) =>
      some (lambda_stub env lambdaTy heap self.invocation params)
  | some (stub_id.const_lambda_stub lambdaTy) =>
      some (const_lambda_stub env lambdaTy heap self.invocation params)

/-- Free-wrapper `call_if` for void `TReturn`: guards with `is_valid()`,
invokes `operator()` and returns `true` when bound, returns `false` without
calling when unbound.  The call in the source body is written
`operator()(TParameters... params)` — a type parameter pack in expression
position, which is ill-formed C++; it is transliterated here as the evident
intent, applying `operator()` to the forwarded parameters (as the method
wrappers' `call_if` does). -/
def function_wrapper.call_if_void {σ α : Type} (env : FreeEnv σ α Unit)
    (heap : Nat → σ) (self : function_wrapper) (params : α) :
    Bool × (Nat → σ) :=
  if self.is_valid then
    match function_wrapper.call env heap self params with
    | some r => (true, r.2)
    | none => (true, heap)
  else
    (false, heap)

/-- Free-wrapper `call_if` for non-void `TReturn`: builds an empty
`etl::optional<TRet>`, assigns `operator()`'s result to it when `is_valid()`,
and returns it.  The source body's call is the same ill-formed
`operator()(TParameters... params)` expression, transliterated as the
evident intent (apply `operator()` to the forwarded parameters). -/
def function_wrapper.call_if {σ α β : Type} (env : FreeEnv σ α β)
    (heap : Nat → σ) (self : function_wrapper) (params : α) :
    Option β × (Nat → σ) :=
  if self.is_valid then
    match function_wrapper.call env heap self params with
    | some r => (some r.1, r.2)
    | none => (none, heap)
  else
    (none, heap)

/-- Free-wrapper `call_or` (only for non-void `TReturn`): returns
`operator()`'s result when `is_valid()`, else returns the alternative value.
The source body's call is the same ill-formed
`operator()(TParameters... params)` expression, transliterated as the
evident intent. -/
def function_wrapper.call_or {σ α β : Type} (env : FreeEnv σ α β)
    (heap : Nat → σ) (self : function_wrapper) (alternative : β)
    (params : α) : β × (Nat → σ) :=
  if self.is_valid then
    match function_wrapper.call env heap self params with
    | some r => r
    | none => (alternative, heap)
  else
    (alternative, heap)

/-- Result of an operation that may invoke the error facility with the
`etl::member_function_uninitialised` condition (`ETL_ASSERT(is_valid(), ...)`
in the method wrappers' `operator()`). -/
inductive etl_call_result (τ : Type) where
  | raised_uninitialised : etl_call_result τ
  | ok : τ → etl_call_result τ
deriving DecidableEq

/-- Tag of the single stub function of the mutable-method wrapper; its stub
pointer is `Option method_stub_id`, `none` being `ETL_NULLPTR`. -/
inductive method_stub_id where
  | method_stub : method_stub_id
deriving DecidableEq

/-- Invocation record of the mutable-method wrapper
`function_wrapper<TReturn(TObject&, TParameters...)>`: the member-function
pointer (default `ETL_NULLPTR`, modelled `0`) and the stub pointer (default
`ETL_NULLPTR`). -/
structure method_invocation_element where
  method : Nat
  stub : Option method_stub_id
deriving DecidableEq

/-- Source `operator==` of the method record:
`(rhs.method == method) && (rhs.stub == stub)`. -/
def method_invocation_element.eq (lhs rhs : method_invocation_element) : Bool :=
  decide (rhs.method = lhs.method) && decide (rhs.stub = lhs.stub)

/-- Source `operator!=` of the method record. -/
def method_invocation_element.ne (lhs rhs : method_invocation_element) : Bool :=
  !(method_invocation_element.eq lhs rhs)

/-- The mutable-method wrapper
`function_wrapper<TReturn(TObject&, TParameters...)>`. -/
structure function_wrapper_method where
  invocation : method_invocation_element
deriving DecidableEq

/-- Default constructor: null member pointer, null stub. -/
def function_wrapper_method.init : function_wrapper_method :=
  ⟨⟨0, none⟩⟩

/-- Constructor `function_wrapper(method_type method_)`: stores the
member-function pointer and binds `method_stub`. -/
def function_wrapper_method.ofMethod (method : Nat) : function_wrapper_method :=
  ⟨⟨method, some method_stub_id.method_stub⟩⟩

/-- Source `is_valid()`: `invocation.stub != ETL_NULLPTR`. -/
def function_wrapper_method.is_valid (self : function_wrapper_method) : Bool :=
  decide (self.invocation.stub ≠ none)

/-- Source `operator bool()`: returns `is_valid()`. -/
def function_wrapper_method.to_bool (self : function_wrapper_method) : Bool :=
  self.is_valid

/-- Source `operator==`: compares the invocation records. -/
def function_wrapper_method.eq (self rhs : function_wrapper_method) : Bool :=
  method_invocation_element.eq self.invocation rhs.invocation

/-- Source `operator!=`. -/
def function_wrapper_method.ne (self rhs : function_wrapper_method) : Bool :=
  method_invocation_element.ne self.invocation rhs.invocation

/-- Defaulted copy assignment `operator=`: memberwise copy of the record. -/
def function_wrapper_method.assign (_self other : function_wrapper_method) :
    function_wrapper_method :=
  ⟨other.invocation⟩

/-- Source `method_stub`: `(object.*method)(params...)`.  The environment
`env` gives the behaviour of each member-function pointer on a receiver
state; a mutable member function returns the result together with the
updated receiver. -/
def method_stub {γ α β : Type} (env : Nat → γ → α → β × γ) (object : γ)
    (method : Nat) (params : α) : β × γ :=
  env method object params

/-- Source `operator()(TObject&, TParameters...)` of the mutable-method
wrapper: `ETL_ASSERT(is_valid(), ETL_ERROR(etl::member_function_uninitialised));`
then `return (*invocation.stub)(object, invocation.method, params...);`.
When unbound the error facility is invoked with the uninitialised condition;
when bound the dispatch goes through `method_stub`, the record's only
possible non-null stub. -/
def function_wrapper_method.call {γ α β : Type} (env : Nat → γ → α → β × γ)
    (self : function_wrapper_method) (object : γ) (params : α) :
    etl_call_result (β × γ) :=
  if self.is_valid then
    etl_call_result.ok (method_stub env object self.invocation.method params)
  else
    etl_call_result.raised_uninitialised

/-- Mutable-method `call_if` for void `TReturn`: guards with `is_valid()`;
invokes `operator()` and returns `true` when bound, returns `false` without
calling when unbound. -/
def function_wrapper_method.call_if_void {γ α : Type}
    (env : Nat → γ → α → Unit × γ) (self : function_wrapper_method)
    (object : γ) (params : α) : etl_call_result (Bool × γ) :=
  if self.is_valid then
    match function_wrapper_method.call env self object params with
    | etl_call_result.ok r => etl_call_result.ok (true, r.2)
    | etl_call_result.raised_uninitialised => etl_call_result.raised_uninitialised
  else
    etl_call_result.ok (false, object)

/-- Mutable-method `call_if` for non-void `TReturn`: empty
`etl::optional<TRet>` assigned from `operator()` when `is_valid()`. -/
def function_wrapper_method.call_if {γ α β : Type}
    (env : Nat → γ → α → β × γ) (self : function_wrapper_method)
    (object : γ) (params : α) : etl_call_result (Option β × γ) :=
  if self.is_valid then
    match function_wrapper_method.call env self object params with
    | etl_call_result.ok r => etl_call_result.ok (some r.1, r.2)
    | etl_call_result.raised_uninitialised => etl_call_result.raised_uninitialised
  else
    etl_call_result.ok (none, object)

/-- Mutable-method `call_or` for void `TReturn`: invokes `operator()` when
`is_valid()`, else invokes `alternative(params...)` — the alternative is a
callable applied to the forwarded parameters (without the receiver), not a
substitute value.  A void alternative's effects lie outside the modelled
state, so only the receiver's final state is observable. -/
def function_wrapper_method.call_or_void {γ α : Type}
    (env : Nat → γ → α → Unit × γ) (_alternative : α → Unit)
    (self : function_wrapper_method) (object : γ) (params : α) :
    etl_call_result γ :=
  if self.is_valid then
    match function_wrapper_method.call env self object params with
    | etl_call_result.ok r => etl_call_result.ok r.2
    | etl_call_result.raised_uninitialised => etl_call_result.raised_uninitialised
  else
    etl_call_result.ok object

/-- Mutable-method `call_or` for non-void `TReturn`: returns `operator()`'s
result when `is_valid()`, else returns `alternative(params...)` — the
alternative is invoked as a fallback callable on the same parameters (the
receiver is not passed to it and is left unchanged). -/
def function_wrapper_method.call_or {γ α β : Type}
    (env : Nat → γ → α → β × γ) (alternative : α → β)
    (self : function_wrapper_method) (object : γ) (params : α) :
    etl_call_result (β × γ) :=
  if self.is_valid then
    function_wrapper_method.call env self object params
  else
    etl_call_result.ok (alternative params, object)

/-- Tag of the single stub function of the const-method wrapper; its stub
pointer is `Option const_method_stub_id`, `none` being `ETL_NULLPTR`. -/
inductive const_method_stub_id where
  | const_method_stub : const_method_stub_id
deriving DecidableEq

/-- Invocation record of the const-method wrapper
`function_wrapper<TReturn(const TObject&, TParameters...)>`: the
const-member-function pointer (default `ETL_NULLPTR`, modelled `0`) and the
stub pointer (default `ETL_NULLPTR`). -/
structure const_method_invocation_element where
  const_method : Nat
  const_stub : Option const_method_stub_id
deriving DecidableEq

/-- Source `operator==` of the const-method record:
`(rhs.const_method == const_method) && (rhs.const_stub == const_stub)`. -/
def const_method_invocation_element.eq
    (lhs rhs : const_method_invocation_element) : Bool :=
  decide (rhs.const_method = lhs.const_method) &&
    decide (rhs.const_stub = lhs.const_stub)

/-- Source `operator!=` of the const-method record. -/
def const_method_invocation_element.ne
    (lhs rhs : const_method_invocation_element) : Bool :=
  !(const_method_invocation_element.eq lhs rhs)

/-- The const-method wrapper
`function_wrapper<TReturn(const TObject&, TParameters...)>`. -/
structure function_wrapper_const_method where
  invocation : const_method_invocation_element
deriving DecidableEq

/-- Default constructor: null member pointer, null stub. -/
def function_wrapper_const_method.init : function_wrapper_const_method :=
  ⟨⟨0, none⟩⟩

/-- Constructor `function_wrapper(const_method_type const_method_)`: stores
the member-function pointer and binds `const_method_stub`. -/
def function_wrapper_const_method.ofMethod (const_method : Nat) :
    function_wrapper_const_method :=
  ⟨⟨const_method, some const_method_stub_id.const_method_stub⟩⟩

/-- Source `is_valid()`: `invocation.const_stub != ETL_NULLPTR`. -/
def function_wrapper_const_method.is_valid
    (self : function_wrapper_const_method) : Bool :=
  decide (self.invocation.const_stub ≠ none)

/-- Source `operator bool()`: returns `is_valid()`. -/
def function_wrapper_const_method.to_bool
    (self : function_wrapper_const_method) : Bool :=
  self.is_valid

/-- Source `operator==`: compares the invocation records. -/
def function_wrapper_const_method.eq
    (self rhs : function_wrapper_const_method) : Bool :=
  const_method_invocation_element.eq self.invocation rhs.invocation

/-- Source `operator!=`. -/
def function_wrapper_const_method.ne
    (self rhs : function_wrapper_const_method) : Bool :=
  const_method_invocation_element.ne self.invocation rhs.invocation

/-- Defaulted copy assignment `operator=`: memberwise copy of the record. -/
def function_wrapper_const_method.assign
    (_self other : function_wrapper_const_method) :
    function_wrapper_const_method :=
  ⟨other.invocation⟩

/-- Source `const_method_stub`: `(object.*const_method)(params...)`.  A
const member function cannot mutate the receiver, so the environment maps a
member-pointer value and a receiver state to the result alone. -/
def const_method_stub {γ α β : Type} (env : Nat → γ → α → β) (object : γ)
    (const_method : Nat) (params : α) : β :=
  env const_method object params

/-- Source `operator()(const TObject&, TParameters...)` of the const-method
wrapper: `ETL_ASSERT(is_valid(), ...)` then dispatch through
`const_method_stub`, the record's only possible non-null stub. -/
def function_wrapper_const_method.call {γ α β : Type}
    (env : Nat → γ → α → β) (self : function_wrapper_const_method)
    (object : γ) (params : α) : etl_call_result β :=
  if self.is_valid then
    etl_call_result.ok
      (const_method_stub env object self.invocation.const_method params)
  else
    etl_call_result.raised_uninitialised

/-- Const-method `call_if` for void `TReturn`: guards with `is_valid()`;
returns `true` after invoking `operator()` when bound, `false` without
calling when unbound. -/
def function_wrapper_const_method.call_if_void {γ α : Type}
    (env : Nat → γ → α → Unit) (self : function_wrapper_const_method)
    (object : γ) (params : α) : etl_call_result Bool :=
  if self.is_valid then
    match function_wrapper_const_method.call env self object params with
    | etl_call_result.ok _ => etl_call_result.ok true
    | etl_call_result.raised_uninitialised => etl_call_result.raised_uninitialised
  else
    etl_call_result.ok false

/-- Const-method `call_if` for non-void `TReturn`: empty
`etl::optional<TRet>` assigned from `operator()` when `is_valid()`. -/
def function_wrapper_const_method.call_if {γ α β : Type}
    (env : Nat → γ → α → β) (self : function_wrapper_const_method)
    (object : γ) (params : α) : etl_call_result (Option β) :=
  if self.is_valid then
    match function_wrapper_const_method.call env self object params with
    | etl_call_result.ok r => etl_call_result.ok (some r)
    | etl_call_result.raised_uninitialised => etl_call_result.raised_uninitialised
  else
    etl_call_result.ok none

/-- Const-method `call_or` for void `TReturn`: invokes `operator()` when
`is_valid()`, else invokes `alternative(params...)`; a void call on a const
receiver has no effect inside the modelled state. -/
def function_wrapper_const_method.call_or_void {γ α : Type}
    (env : Nat → γ → α → Unit) (_alternative : α → Unit)
    (self : function_wrapper_const_method) (object : γ) (params : α) :
    etl_call_result Unit :=
  if self.is_valid then
    match function_wrapper_const_method.call env self object params with
    | etl_call_result.ok _ => etl_call_result.ok ()
    | etl_call_result.raised_uninitialised => etl_call_result.raised_uninitialised
  else
    etl_call_result.ok ()

/-- Const-method `call_or` for non-void `TReturn`: returns `operator()`'s
result when `is_valid()`, else returns `alternative(params...)` — the
alternative is invoked as a fallback callable on the same parameters. -/
def function_wrapper_const_method.call_or {γ α β : Type}
    (env : Nat → γ → α → β) (alternative : α → β)
    (self : function_wrapper_const_method) (object : γ) (params : α) :
    etl_call_result β :=
  if self.is_valid then
    function_wrapper_const_method.call env self object params
  else
    etl_call_result.ok (alternative params)

/-- Concrete free-callable environment on `Nat` data, used by the witness
theorems: the function at pointer `p` adds `p`, the mutable functor of type
tag `t` adds its own state and increments it, the const functor multiplies. -/
def envN : FreeEnv Nat Nat Nat :=
  ⟨fun p a => p + a, fun t s a => (t + s + a, s + 1), fun t s a => t * s + a⟩

/-- Concrete void free-callable environment used by the witness theorems. -/
def envUN : FreeEnv Nat Nat Unit :=
  ⟨fun _ _ => (), fun _ s _ => ((), s + 1), fun _ _ _ => ()⟩

/-- Concrete heap of functor states used by the witness theorems. -/
def heap0 : Nat → Nat := fun _ => 0

/-- Concrete mutable-member-function environment on `Nat` receivers used by
the witness theorems: member `m` returns `m + object + params` and adds
`params` to the receiver. -/
def envMN : Nat → Nat → Nat → Nat × Nat :=
  fun m object params => (m + object + params, object + params)

/-- Concrete void mutable-member-function environment used by the witness
theorems: member `m` adds `m` to the receiver. -/
def envMUN : Nat → Nat → Nat → Unit × Nat :=
  fun m object _ => ((), object + m)

/-- Concrete const-member-function environment used by the witness
theorems: member `m` returns `m * object + params`. -/
def envCN : Nat → Nat → Nat → Nat :=
  fun m object params => m * object + params

/-- Concrete void const-member-function environment used by the witness
theorems. -/
def envCUN : Nat → Nat → Nat → Unit :=
  fun _ _ _ => ()

/-- C1: a `function_wrapper<TReturn(TParameters...)>` constructed from a
free function is bound, and invoking its `operator()` with an argument list
returns exactly the result of calling the function directly on those
arguments (no functor state is touched). -/
theorem C1_free_function_invocation {σ α β : Type} (env : FreeEnv σ α β)
    (heap : Nat → σ) (func : Nat) (params : α) :
    (function_wrapper.ofFunction func).is_valid = true ∧
    function_wrapper.call env heap (function_wrapper.ofFunction func) params =
      some (env.funSem func params, heap) :=
  ⟨rfl, rfl⟩

/-- C5: the free-callable `operator()` performs no validity check before
dispatch: the call succeeds exactly when the stub is non-null (so the
null-stub branch is unreachable for a bound wrapper), and on an unbound
wrapper it dereferences the null stub (the out-of-contract `none` outcome)
rather than raising a reported error. -/
theorem C5_free_call_unchecked {σ α β : Type} (env : FreeEnv σ α β)
    (heap : Nat → σ) (w : function_wrapper) (params : α) :
    (function_wrapper.call env heap w params).isSome = w.is_valid ∧
    function_wrapper.call env heap function_wrapper.init params = none := by
  refine ⟨?_, rfl⟩
  obtain ⟨⟨alt, stub⟩⟩ := w
  cases stub with
  | none => rfl
  | some s => cases s <;> rfl

/-- C8: for every wrapper of any of the three kinds, `is_valid()` and the
boolean conversion are true exactly when the stub is non-null: false on a
default-constructed wrapper, true immediately after construction from a
function pointer, a lambda or functor reference, or a (const)
member-function pointer, and preserved by assignment (so it changes only
when the wrapper is rebound). -/
theorem C8_validity (w v : function_wrapper) (wm vm : function_wrapper_method)
    (wc vc : function_wrapper_const_method) (func lambdaTy addr method : Nat) :
    function_wrapper.init.is_valid = false ∧
    function_wrapper_method.init.is_valid = false ∧
    function_wrapper_const_method.init.is_valid = false ∧
    (function_wrapper.ofFunction func).is_valid = true ∧
    (function_wrapper.ofLambda lambdaTy addr).is_valid = true ∧
    (function_wrapper.ofConstLambda lambdaTy addr).is_valid = true ∧
    (function_wrapper_method.ofMethod method).is_valid = true ∧
    (function_wrapper_const_method.ofMethod method).is_valid = true ∧
    w.to_bool = w.is_valid ∧
    wm.to_bool = wm.is_valid ∧
    wc.to_bool = wc.is_valid ∧
    (w.is_valid = true ↔ w.invocation.stub ≠ none) ∧
    (wm.is_valid = true ↔ wm.invocation.stub ≠ none) ∧
    (wc.is_valid = true ↔ wc.invocation.const_stub ≠ none) ∧
    (function_wrapper.assign w v).is_valid = v.is_valid ∧
    (function_wrapper_method.assign wm vm).is_valid = vm.is_valid ∧
    (function_wrapper_const_method.assign wc vc).is_valid = vc.is_valid := by
  refine ⟨rfl, rfl, rfl, rfl, rfl, rfl, rfl, rfl, rfl, rfl, rfl, ?_, ?_, ?_,
    rfl, rfl, rfl⟩
  · exact decide_eq_true_iff
  · exact decide_eq_true_iff
  · exact decide_eq_true_iff

/-- C9: rebinding a previously bound wrapper by assignment replaces the
whole invocation record: the result is the assigned-from wrapper itself
(for each of the three kinds), so every subsequent equality check, validity
query and call is determined solely by the new binding, with no trace of
the old one. -/
theorem C9_rebind_replaces_record {σ α β : Type} (old nw other : function_wrapper)
    (oldm nwm : function_wrapper_method)
    (oldc nwc : function_wrapper_const_method) (env : FreeEnv σ α β)
    (heap : Nat → σ) (params : α) :
    function_wrapper.assign old nw = nw ∧
    function_wrapper_method.assign oldm nwm = nwm ∧
    function_wrapper_const_method.assign oldc nwc = nwc ∧
    function_wrapper.eq (function_wrapper.assign old nw) other =
      function_wrapper.eq nw other ∧
    (function_wrapper.assign old nw).is_valid = nw.is_valid ∧
    function_wrapper.call env heap (function_wrapper.assign old nw) params =
      function_wrapper.call env heap nw params :=
  ⟨rfl, rfl, rfl, rfl, rfl, rfl⟩

/-- C10: a free-callable wrapper built from a non-const reference to a
functor and one built from a const reference to the same object receive
distinct stubs (`lambda_stub` versus `const_lambda_stub`) and therefore
compare unequal in both directions, even though both store the same object
address. -/
theorem C10_lambda_const_lambda_unequal (lambdaTy addr : Nat) :
    (function_wrapper.ofLambda lambdaTy addr).invocation.stub ≠
      (function_wrapper.ofConstLambda lambdaTy addr).invocation.stub ∧
    (function_wrapper.ofLambda lambdaTy addr).invocation.alternate.object =
      (function_wrapper.ofConstLambda lambdaTy addr).invocation.alternate.object ∧
    function_wrapper.eq (function_wrapper.ofLambda lambdaTy addr)
      (function_wrapper.ofConstLambda lambdaTy addr) = false ∧
    function_wrapper.eq (function_wrapper.ofConstLambda lambdaTy addr)
      (function_wrapper.ofLambda lambdaTy addr) = false := by
  refine ⟨?_, rfl, ?_, ?_⟩ <;>
    simp [function_wrapper.ofLambda, function_wrapper.ofConstLambda,
      function_wrapper.eq, invocation_element.eq]

/-- C2: for the mutable-method and const-method wrappers, `operator()`
raises the uninitialised-invocation condition exactly when the wrapper is
unbound; when bound it raises nothing and returns the result of dispatching
`(receiver.*method)(args...)`.  No other operation of these wrappers
(`call_if`, `call_or`, in either voidness) ever raises the condition. -/
theorem C2_uninitialised_raised_iff_unbound {γ α β : Type}
    (envM : Nat → γ → α → β × γ) (envMU : Nat → γ → α → Unit × γ)
    (envC : Nat → γ → α → β) (envCU : Nat → γ → α → Unit)
    (altB : α → β) (altU : α → Unit) (wm : function_wrapper_method)
    (wc : function_wrapper_const_method) (object : γ) (params : α) :
    (function_wrapper_method.call envM wm object params =
        etl_call_result.raised_uninitialised ↔ wm.is_valid = false) ∧
    (function_wrapper_const_method.call envC wc object params =
        etl_call_result.raised_uninitialised ↔ wc.is_valid = false) ∧
    (wm.is_valid = true →
      function_wrapper_method.call envM wm object params =
        etl_call_result.ok (envM wm.invocation.method object params)) ∧
    (wc.is_valid = true →
      function_wrapper_const_method.call envC wc object params =
        etl_call_result.ok (envC wc.invocation.const_method object params)) ∧
    function_wrapper_method.call_if envM wm object params ≠
      etl_call_result.raised_uninitialised ∧
    function_wrapper_method.call_if_void envMU wm object params ≠
      etl_call_result.raised_uninitialised ∧
    function_wrapper_method.call_or envM altB wm object params ≠
      etl_call_result.raised_uninitialised ∧
    function_wrapper_method.call_or_void envMU altU wm object params ≠
      etl_call_result.raised_uninitialised ∧
    function_wrapper_const_method.call_if envC wc object params ≠
      etl_call_result.raised_uninitialised ∧
    function_wrapper_const_method.call_if_void envCU wc object params ≠
      etl_call_result.raised_uninitialised ∧
    function_wrapper_const_method.call_or envC altB wc object params ≠
      etl_call_result.raised_uninitialised ∧
    function_wrapper_const_method.call_or_void envCU altU wc object params ≠
      etl_call_result.raised_uninitialised := by
  cases hm : wm.is_valid <;> cases hc : wc.is_valid <;>
    simp [method_stub, const_method_stub,
      function_wrapper_method.call, function_wrapper_const_method.call,
      function_wrapper_method.call_if, function_wrapper_method.call_if_void,
      function_wrapper_method.call_or, function_wrapper_method.call_or_void,
      function_wrapper_const_method.call_if,
      function_wrapper_const_method.call_if_void,
      function_wrapper_const_method.call_or,
      function_wrapper_const_method.call_or_void, hm, hc]

/-- Witness for C2 at concrete inputs: the unbound mutable-method wrapper
raises the condition on `operator()(5, 3)`, and bound to member `2` the call
returns the dispatched result without raising. -/
theorem C2_uninitialised_raised_iff_unbound_witness :
    function_wrapper_method.call envMN function_wrapper_method.init (5 : Nat) 3 =
      etl_call_result.raised_uninitialised ∧
    function_wrapper_method.call envMN (function_wrapper_method.ofMethod 2) (5 : Nat) 3 =
      etl_call_result.ok (10, 8) ∧
    function_wrapper_const_method.call envCN
      (function_wrapper_const_method.ofMethod 2) (5 : Nat) 3 =
      etl_call_result.ok 13 := by
  have h1 := C2_uninitialised_raised_iff_unbound envMN envMUN envCN envCUN
    (fun a => a) (fun _ => ()) function_wrapper_method.init
    function_wrapper_const_method.init (5 : Nat) (3 : Nat)
  have h2 := C2_uninitialised_raised_iff_unbound envMN envMUN envCN envCUN
    (fun a => a) (fun _ => ()) (function_wrapper_method.ofMethod 2)
    (function_wrapper_const_method.ofMethod 2) (5 : Nat) (3 : Nat)
  exact ⟨h1.1.mpr rfl, h2.2.2.1 rfl, h2.2.2.2.1 rfl⟩

/-- C4: free-callable equality holds exactly when the stubs are equal and
either both are null, or the shared stub is the free-function stub and the
stored function pointers agree, or the stored object addresses agree.  In
particular two wrappers bound to the same free function compare equal, two
bound to distinct function pointers compare unequal, and two bound to
distinct functor instances of the same type (identical internal state or
not) compare unequal. -/
theorem C4_identity_based_equality (w1 w2 : function_wrapper)
    (func f g lambdaTy a1 a2 : Nat) :
    (function_wrapper.eq w1 w2 = true ↔
      (w1.invocation.stub = w2.invocation.stub ∧
        (w1.invocation.stub = none ∨
          (w1.invocation.stub = some stub_id.function_stub ∧
            w2.invocation.alternate.func = w1.invocation.alternate.func) ∨
          w2.invocation.alternate.object = w1.invocation.alternate.object))) ∧
    function_wrapper.eq (function_wrapper.ofFunction func)
      (function_wrapper.ofFunction func) = true ∧
    (f ≠ g →
      function_wrapper.eq (function_wrapper.ofFunction f)
        (function_wrapper.ofFunction g) = false) ∧
    (a1 ≠ a2 →
      function_wrapper.eq (function_wrapper.ofLambda lambdaTy a1)
        (function_wrapper.ofLambda lambdaTy a2) = false) := by
  refine ⟨?_, ?_, ?_, ?_⟩
  · simp [function_wrapper.eq, invocation_element.eq, Bool.and_eq_true,
      Bool.or_eq_true, decide_eq_true_eq]
    tauto
  · simp [function_wrapper.eq, invocation_element.eq]
  · intro h
    simp [function_wrapper.eq, invocation_element.eq,
      function_wrapper.ofFunction, alternate_method_t.ofFunc,
      alternate_method_t.func, alternate_method_t.object, Ne.symm h]
  · intro h
    simp [function_wrapper.eq, invocation_element.eq,
      function_wrapper.ofLambda, alternate_method_t.ofObject,
      alternate_method_t.func, alternate_method_t.object, Ne.symm h]

/-- Witness for C4 at concrete inputs: wrappers on function pointers `1`
and `2` compare unequal, as do wrappers on functor addresses `4` and `6` of
one functor type. -/
theorem C4_identity_based_equality_witness :
    function_wrapper.eq (function_wrapper.ofFunction 1)
      (function_wrapper.ofFunction 2) = false ∧
    function_wrapper.eq (function_wrapper.ofLambda 9 4)
      (function_wrapper.ofLambda 9 6) = false := by
  have h := C4_identity_based_equality function_wrapper.init
    function_wrapper.init 3 1 2 9 4 6
  exact ⟨h.2.2.1 (by decide), h.2.2.2 (by decide)⟩

/-- C3: behaviour of `call_if` across the three wrapper kinds and both
voidness cases, with the free wrapper's ill-formed call expression
`operator()(TParameters... params)` read as its evident intent (see
`function_wrapper.call_if`): when unbound, `call_if` performs no call and no
side effect and returns `false` / an empty optional; when bound it performs
exactly the one dispatched call and returns `true` / an optional holding
exactly the value `operator()` returns, together with that call's effect. -/
theorem C3_call_if_guarded {σ α β γ : Type} (env : FreeEnv σ α β)
    (envU : FreeEnv σ α Unit) (envM : Nat → γ → α → β × γ)
    (envMU : Nat → γ → α → Unit × γ) (envC : Nat → γ → α → β)
    (envCU : Nat → γ → α → Unit) (heap : Nat → σ) (w : function_wrapper)
    (wm : function_wrapper_method) (wc : function_wrapper_const_method)
    (object : γ) (params : α) :
    (w.is_valid = false →
      function_wrapper.call_if env heap w params = (none, heap)) ∧
    (w.is_valid = false →
      function_wrapper.call_if_void envU heap w params = (false, heap)) ∧
    (wm.is_valid = false →
      function_wrapper_method.call_if envM wm object params =
        etl_call_result.ok (none, object)) ∧
    (wm.is_valid = false →
      function_wrapper_method.call_if_void envMU wm object params =
        etl_call_result.ok (false, object)) ∧
    (wc.is_valid = false →
      function_wrapper_const_method.call_if envC wc object params =
        etl_call_result.ok none) ∧
    (wc.is_valid = false →
      function_wrapper_const_method.call_if_void envCU wc object params =
        etl_call_result.ok false) ∧
    (∀ r h, function_wrapper.call env heap w params = some (r, h) →
      function_wrapper.call_if env heap w params = (some r, h)) ∧
    (∀ r h, function_wrapper.call envU heap w params = some (r, h) →
      function_wrapper.call_if_void envU heap w params = (true, h)) ∧
    (wm.is_valid = true →
      function_wrapper_method.call_if envM wm object params =
        etl_call_result.ok (some (envM wm.invocation.method object params).1,
          (envM wm.invocation.method object params).2)) ∧
    (wm.is_valid = true →
      function_wrapper_method.call_if_void envMU wm object params =
        etl_call_result.ok (true, (envMU wm.invocation.method object params).2)) ∧
    (wc.is_valid = true →
      function_wrapper_const_method.call_if envC wc object params =
        etl_call_result.ok (some (envC wc.invocation.const_method object params))) ∧
    (wc.is_valid = true →
      function_wrapper_const_method.call_if_void envCU wc object params =
        etl_call_result.ok true) := by
  refine ⟨?_, ?_, ?_, ?_, ?_, ?_, ?_, ?_, ?_, ?_, ?_, ?_⟩
  · intro hv
    simp [function_wrapper.call_if, hv]
  · intro hv
    simp [function_wrapper.call_if_void, hv]
  · intro hv
    simp [function_wrapper_method.call_if, hv]
  · intro hv
    simp [function_wrapper_method.call_if_void, hv]
  · intro hv
    simp [function_wrapper_const_method.call_if, hv]
  · intro hv
    simp [function_wrapper_const_method.call_if_void, hv]
  · intro r h hc
    obtain ⟨⟨alt, stub⟩⟩ := w
    cases stub with
    | none => simp [function_wrapper.call] at hc
    | some s => simp [function_wrapper.call_if, function_wrapper.is_valid, hc]
  · intro r h hc
    obtain ⟨⟨alt, stub⟩⟩ := w
    cases stub with
    | none => simp [function_wrapper.call] at hc
    | some s => simp [function_wrapper.call_if_void, function_wrapper.is_valid, hc]
  · intro hv
    simp [function_wrapper_method.call_if, function_wrapper_method.call,
      method_stub, hv]
  · intro hv
    simp [function_wrapper_method.call_if_void, function_wrapper_method.call,
      method_stub, hv]
  · intro hv
    simp [function_wrapper_const_method.call_if,
      function_wrapper_const_method.call, const_method_stub, hv]
  · intro hv
    simp [function_wrapper_const_method.call_if_void,
      function_wrapper_const_method.call, const_method_stub, hv]

/-- Witness for C3 at concrete inputs: unbound wrappers yield an empty
optional or `false` with untouched state; bound wrappers yield the direct
call's result. -/
theorem C3_call_if_guarded_witness :
    function_wrapper.call_if envN heap0 function_wrapper.init 3 = (none, heap0) ∧
    function_wrapper_const_method.call_if_void envCUN
      function_wrapper_const_method.init (5 : Nat) 3 = etl_call_result.ok false ∧
    function_wrapper.call_if envN heap0 (function_wrapper.ofFunction 5) 3 =
      (some 8, heap0) ∧
    function_wrapper_method.call_if envMN (function_wrapper_method.ofMethod 2)
      (5 : Nat) 3 = etl_call_result.ok (some 10, 8) := by
  have h1 := C3_call_if_guarded envN envUN envMN envMUN envCN envCUN heap0
    function_wrapper.init function_wrapper_method.init
    function_wrapper_const_method.init (5 : Nat) (3 : Nat)
  have h2 := C3_call_if_guarded envN envUN envMN envMUN envCN envCUN heap0
    (function_wrapper.ofFunction 5) (function_wrapper_method.ofMethod 2)
    function_wrapper_const_method.init (5 : Nat) (3 : Nat)
  exact ⟨h1.1 rfl, h1.2.2.2.2.2.1 rfl,
    h2.2.2.2.2.2.2.1 8 heap0 rfl, h2.2.2.2.2.2.2.2.2.1 rfl⟩

/-- C6: behaviour of the free-callable non-void `call_or`, with the
ill-formed call expression read as its evident intent (see
`function_wrapper.call_or`): when unbound it returns the alternative value
unchanged with no call and no side effect; when bound it returns exactly
`operator()`'s result, independent of the alternative supplied. -/
theorem C6_call_or_substitute_value {σ α β : Type} (env : FreeEnv σ α β)
    (heap : Nat → σ) (w : function_wrapper) (alternative alt2 : β)
    (params : α) :
    (w.is_valid = false →
      function_wrapper.call_or env heap w alternative params =
        (alternative, heap)) ∧
    (∀ r h, function_wrapper.call env heap w params = some (r, h) →
      function_wrapper.call_or env heap w alternative params = (r, h) ∧
      function_wrapper.call_or env heap w alt2 params = (r, h)) := by
  refine ⟨?_, ?_⟩
  · intro hv
    simp [function_wrapper.call_or, hv]
  · intro r h hc
    obtain ⟨⟨alt, stub⟩⟩ := w
    cases stub with
    | none => simp [function_wrapper.call] at hc
    | some s =>
      constructor <;> simp [function_wrapper.call_or, function_wrapper.is_valid, hc]

/-- Witness for C6 at concrete inputs: the unbound wrapper returns the
alternative `7` unchanged; bound to function pointer `5` it returns the
call's result `8` for either alternative. -/
theorem C6_call_or_substitute_value_witness :
    function_wrapper.call_or envN heap0 function_wrapper.init 7 3 = (7, heap0) ∧
    function_wrapper.call_or envN heap0 (function_wrapper.ofFunction 5) 7 3 =
      (8, heap0) ∧
    function_wrapper.call_or envN heap0 (function_wrapper.ofFunction 5) 11 3 =
      (8, heap0) := by
  have h1 := C6_call_or_substitute_value envN heap0 function_wrapper.init
    (7 : Nat) 11 (3 : Nat)
  have h2 := C6_call_or_substitute_value envN heap0
    (function_wrapper.ofFunction 5) (7 : Nat) 11 (3 : Nat)
  exact ⟨h1.1 rfl, (h2.2 8 heap0 rfl).1, (h2.2 8 heap0 rfl).2⟩

/-- C7: for the mutable-method and const-method wrappers, `call_or` invokes
the alternative as a fallback callable applied to the forwarded arguments
when the wrapper is unbound (the receiver is not passed to it and is left
unchanged), and when bound dispatches the bound member on the receiver,
independent of the alternative supplied. -/
theorem C7_method_call_or_fallback {γ α β : Type}
    (envM : Nat → γ → α → β × γ) (envMU : Nat → γ → α → Unit × γ)
    (envC : Nat → γ → α → β) (altB altB2 : α → β) (altU : α → Unit)
    (wm : function_wrapper_method) (wc : function_wrapper_const_method)
    (object : γ) (params : α) :
    (wm.is_valid = false →
      function_wrapper_method.call_or envM altB wm object params =
        etl_call_result.ok (altB params, object)) ∧
    (wm.is_valid = true →
      function_wrapper_method.call_or envM altB wm object params =
        etl_call_result.ok (envM wm.invocation.method object params) ∧
      function_wrapper_method.call_or envM altB2 wm object params =
        function_wrapper_method.call_or envM altB wm object params) ∧
    (wm.is_valid = false →
      function_wrapper_method.call_or_void envMU altU wm object params =
        etl_call_result.ok object) ∧
    (wm.is_valid = true →
      function_wrapper_method.call_or_void envMU altU wm object params =
        etl_call_result.ok (envMU wm.invocation.method object params).2) ∧
    (wc.is_valid = false →
      function_wrapper_const_method.call_or envC altB wc object params =
        etl_call_result.ok (altB params)) ∧
    (wc.is_valid = true →
      function_wrapper_const_method.call_or envC altB wc object params =
        etl_call_result.ok (envC wc.invocation.const_method object params)) := by
  refine ⟨?_, ?_, ?_, ?_, ?_, ?_⟩ <;> intro hv <;>
    simp [function_wrapper_method.call_or, function_wrapper_method.call_or_void,
      function_wrapper_const_method.call_or, function_wrapper_method.call,
      function_wrapper_const_method.call, method_stub, const_method_stub, hv]

/-- Witness for C7 at concrete inputs: the unbound mutable-method wrapper
returns the fallback applied to the argument (`3 + 100`) with the receiver
`5` untouched; bound to member `2` it dispatches and ignores the
fallback. -/
theorem C7_method_call_or_fallback_witness :
    function_wrapper_method.call_or envMN (fun a => a + 100)
      function_wrapper_method.init (5 : Nat) 3 = etl_call_result.ok (103, 5) ∧
    function_wrapper_method.call_or envMN (fun a => a + 100)
      (function_wrapper_method.ofMethod 2) (5 : Nat) 3 =
      etl_call_result.ok (10, 8) ∧
    function_wrapper_const_method.call_or envCN (fun a => a + 100)
      function_wrapper_const_method.init (5 : Nat) 3 =
      etl_call_result.ok 103 := by
  have h1 := C7_method_call_or_fallback envMN envMUN envCN (fun a => a + 100)
    (fun a => a + 200) (fun _ => ()) function_wrapper_method.init
    function_wrapper_const_method.init (5 : Nat) (3 : Nat)
  have h2 := C7_method_call_or_fallback envMN envMUN envCN (fun a => a + 100)
    (fun a => a + 200) (fun _ => ()) (function_wrapper_method.ofMethod 2)
    function_wrapper_const_method.init (5 : Nat) (3 : Nat)
  exact ⟨h1.1 rfl, (h2.2.1 rfl).1, h1.2.2.2.2.1 rfl⟩

/-- Witness for C1 at a concrete input: bound to function pointer `5`, the
wrapper is valid and `operator()(3)` returns `envN.funSem 5 3 = 8`. -/
theorem C1_free_function_invocation_witness :
    (function_wrapper.ofFunction 5).is_valid = true ∧
    function_wrapper.call envN heap0 (function_wrapper.ofFunction 5) 3 =
      some (8, heap0) :=
  C1_free_function_invocation envN heap0 5 3

/-- Witness for C5 at concrete inputs: dispatch success coincides with
validity for a bound wrapper, and the default wrapper's call dereferences
the null stub. -/
theorem C5_free_call_unchecked_witness :
    (function_wrapper.call envN heap0 (function_wrapper.ofFunction 5) 3).isSome =
      (function_wrapper.ofFunction 5).is_valid ∧
    function_wrapper.call envN heap0 function_wrapper.init 3 = none :=
  C5_free_call_unchecked envN heap0 (function_wrapper.ofFunction 5) 3

/-- Witness for C8 at concrete inputs: the default wrappers are invalid and
each constructor produces a valid wrapper. -/
theorem C8_validity_witness :
    function_wrapper.init.is_valid = false ∧
    (function_wrapper.ofFunction 5).is_valid = true ∧
    (function_wrapper_method.ofMethod 2).is_valid = true ∧
    (function_wrapper_const_method.ofMethod 2).is_valid = true := by
  have h := C8_validity function_wrapper.init function_wrapper.init
    function_wrapper_method.init function_wrapper_method.init
    function_wrapper_const_method.init function_wrapper_const_method.init
    5 9 4 2
  exact ⟨h.1, h.2.2.2.1, h.2.2.2.2.2.2.1, h.2.2.2.2.2.2.2.1⟩

/-- Witness for C9 at a concrete input: assigning a wrapper bound to
function pointer `2` over one bound to `1` yields exactly the new
wrapper. -/
theorem C9_rebind_replaces_record_witness :
    function_wrapper.assign (function_wrapper.ofFunction 1)
      (function_wrapper.ofFunction 2) = function_wrapper.ofFunction 2 :=
  (C9_rebind_replaces_record (function_wrapper.ofFunction 1)
    (function_wrapper.ofFunction 2) function_wrapper.init
    function_wrapper_method.init function_wrapper_method.init
    function_wrapper_const_method.init function_wrapper_const_method.init
    envN heap0 3).1

/-- Witness for C10 at a concrete input: wrappers over the functor at
address `4` of type tag `9`, taken by non-const and const reference,
compare unequal. -/
theorem C10_lambda_const_lambda_unequal_witness :
    function_wrapper.eq (function_wrapper.ofLambda 9 4)
      (function_wrapper.ofConstLambda 9 4) = false :=
  (C10_lambda_const_lambda_unequal 9 4).2.2.1
